import Mathlib

/-!
Verification development for the cat-bot repository.

The development shallowly embeds the parts of the program the claims are
about:

* `validate_time` from `src/helpers/pydantic_helpers.py`, together with the
  duration parser it delegates to (`parse_duration` from
  `pydantic.datetime_parse`, the Django duration grammar plus an ISO-8601
  fallback);
* the worksheet helpers from `src/helpers/gspread_helpers.py`
  (`safe_append_row`, `get_values_by_header`, `get_first_row_where_header`,
  `str2bool`, `get_or_create_worksheet`);
* the three cog commands from `src/cogs/event_submission.py`
  (`add`, `submit`, `standings`).

Worksheets are modelled as rectangular tables of string cells: a header row
plus data rows.  Durations are modelled as total microseconds (`Int`), which
is exactly the value of a Python `timedelta`; its normalized
`days/seconds/microseconds` fields are recovered with floor division, as
Python does.  Raising an exception is modelled with `Option`/result types.
-/

namespace CatBot

/-! ## Duration parsing: `pydantic.datetime_parse.parse_duration`

`parse_duration` matches the input against `standard_duration_re`

  `^(?:(-?\d+) (days?, )?)?((?:(-?\d+):)(?=\d+:\d+))?(?:(-?\d+):)?(-?\d+)(?:\.(\d{1,6})\d{0,6})?$`

and, failing that, `iso8601_duration_re`.  The regexes below are embedded as
deterministic parsers; determinism is justified because each quantified
group is followed by a delimiter no other group can consume (a space for the
day part, a colon for the hour/minute parts), so the greedy first attempt of
the engine is the only one that can lead to an overall match.

Numeric groups are converted with Python `float` and summed by `timedelta`;
for decimal-digit groups of the sizes any claim exercises this is exact
integer arithmetic, which is how it is modelled here. -/

/-- Numeric value of a list of ASCII decimal digits. -/
def natOfDigits (ds : List Char) : Nat :=
  ds.foldl (fun n c => n * 10 + (c.toNat - '0'.toNat)) 0

/-- Matches `-?\d+` greedily at the head of the input.  Returns the sign
flag, the magnitude, and the unconsumed remainder. -/
def parseSigned (cs : List Char) : Option (Bool × Nat × List Char) :=
  let p := match cs with
    | '-' :: rest => (true, rest)
    | _ => (false, cs)
  let q := p.2.span Char.isDigit
  if q.1.isEmpty then none else some (p.1, natOfDigits q.1, q.2)

/-- Signed integer from a sign flag and a magnitude. -/
def mkInt (neg : Bool) (m : Nat) : Int :=
  if neg then -(m : Int) else (m : Int)

/-- The inner optional group `(days?, )?` of the day part: strips a literal
`days, ` or `day, ` prefix when present. -/
def stripDayKeyword (cs : List Char) : List Char :=
  match cs with
  | 'd' :: 'a' :: 'y' :: 's' :: ',' :: ' ' :: rest => rest
  | 'd' :: 'a' :: 'y' :: ',' :: ' ' :: rest => rest
  | _ => cs

/-- The optional day part `(?:(-?\d+) (days?, )?)?`: a signed number
followed by a space, optionally followed by the day keyword. -/
def splitDays (cs : List Char) : Option Int × List Char :=
  match parseSigned cs with
  | some (neg, m, ' ' :: rest) => (some (mkInt neg m), stripDayKeyword rest)
  | _ => (none, cs)

/-- The lookahead `(?=\d+:\d+)`: one or more digits, a colon, one or more
digits; consumes nothing. -/
def lookaheadMinSec (cs : List Char) : Bool :=
  let q := cs.span Char.isDigit
  match q.1, q.2 with
  | _ :: _, ':' :: c :: _ => c.isDigit
  | _, _ => false

/-- The optional hour part `((?:(-?\d+):)(?=\d+:\d+))?`: a signed number and
a colon, committed only when the lookahead succeeds after the colon. -/
def splitHours (cs : List Char) : Option Int × List Char :=
  match parseSigned cs with
  | some (neg, m, ':' :: rest) =>
      if lookaheadMinSec rest then (some (mkInt neg m), rest) else (none, cs)
  | _ => (none, cs)

/-- The optional minute part `(?:(-?\d+):)?`: a signed number and a colon. -/
def splitMinutes (cs : List Char) : Option Int × List Char :=
  match parseSigned cs with
  | some (neg, m, ':' :: rest) => (some (mkInt neg m), rest)
  | _ => (none, cs)

/-- Capture groups of a successful `standard_duration_re` match.  The
seconds group keeps its sign flag because `parse_duration` prefixes the
microsecond string with `-` when the seconds string starts with `-`. -/
structure StdGroups where
  days : Option Int
  hours : Option Int
  minutes : Option Int
  secNeg : Bool
  seconds : Int
  microDigits : Option (List Char)
  deriving DecidableEq

/-- The mandatory tail of the standard regex: seconds `(-?\d+)`, the
optional fraction `(?:\.(\d{1,6})\d{0,6})?` (at most twelve digits, the
first six captured), and end of input. -/
def parseSecFrac (cs : List Char) : Option (Bool × Int × Option (List Char)) :=
  match parseSigned cs with
  | none => none
  | some (neg, m, rest) =>
    match rest with
    | [] => some (neg, mkInt neg m, none)
    | '.' :: ds =>
      let q := ds.span Char.isDigit
      if q.2.isEmpty ∧ 1 ≤ q.1.length ∧ q.1.length ≤ 12 then
        some (neg, mkInt neg m, some (q.1.take 6))
      else none
    | _ => none

/-- Full match of `standard_duration_re` against the whole input. -/
def standardMatch (cs : List Char) : Option StdGroups :=
  let d := splitDays cs
  let h := splitHours d.2
  let m := splitMinutes h.2
  match parseSecFrac m.2 with
  | some (neg, s, micro) =>
      some { days := d.1, hours := h.1, minutes := m.1,
             secNeg := neg, seconds := s, microDigits := micro }
  | none => none

/-- `str.ljust(6, '0')` on a digit string of length at most six. -/
def ljustSix (ds : List Char) : List Char :=
  ds ++ List.replicate (6 - ds.length) '0'

/-- Total microseconds of the `timedelta` built from a standard-regex match:
`timedelta(days=d, hours=h, minutes=m, seconds=s, microseconds=us)` with the
microsecond string left-justified to six digits and negated when the seconds
group is negative. -/
def stdValue (g : StdGroups) : Int :=
  let micro : Int :=
    match g.microDigits with
    | none => 0
    | some ds => mkInt g.secNeg (natOfDigits (ljustSix ds))
  (g.days.getD 0 * 86400 + g.hours.getD 0 * 3600 + g.minutes.getD 0 * 60
    + g.seconds) * 1000000 + micro

/-- One component `(?:\d+(.\d+)?X)?` of the ISO-8601 duration regex,
restricted to integer components: pydantic converts each group with Python
`float`, a floating-point path no claim exercises; components with a
fractional part (whose separator may be any character, `.` being unescaped
in the library's regex) are treated as failing here. -/
def isoPart (suf : Char) (cs : List Char) : Option Nat × List Char :=
  match cs.span Char.isDigit with
  | ([], _) => (none, cs)
  | (ds, c :: rest) => if c = suf then (some (natOfDigits ds), rest) else (none, cs)
  | (_, []) => (none, cs)

/-- Total microseconds of a match of `iso8601_duration_re`
`^([-+]?)P(?:(\d+)D)?(?:T(?:(\d+)H)?(?:(\d+)M)?(?:(\d+)S)?)?$`
(integer components only, see `isoPart`). -/
def isoValue (cs : List Char) : Option Int :=
  let sp : Int × List Char :=
    match cs with
    | '-' :: rest => (-1, rest)
    | '+' :: rest => (1, rest)
    | _ => (1, cs)
  match sp.2 with
  | 'P' :: r1 =>
    let d := isoPart 'D' r1
    let tr : Option Nat × Option Nat × Option Nat × List Char :=
      match d.2 with
      | 'T' :: r2 =>
        let h := isoPart 'H' r2
        let m := isoPart 'M' h.2
        let s := isoPart 'S' m.2
        (h.1, m.1, s.1, s.2)
      | r2 => (none, none, none, r2)
    match tr with
    | (h, m, s, []) =>
        some (sp.1 * ((d.1.getD 0 : Int) * 86400 + (h.getD 0 : Int) * 3600
          + (m.getD 0 : Int) * 60 + (s.getD 0 : Int)) * 1000000)
    | _ => none
  | _ => none

/-- `pydantic.datetime_parse.parse_duration` on a string: the standard
(Django) regex first, the ISO-8601 regex as fallback; `none` models the
`DurationError` raised when neither matches.  The result is the
`timedelta`'s total value in microseconds. -/
def parse_duration (s : String) : Option Int :=
  match standardMatch s.data with
  | some g => some (stdValue g)
  | none => isoValue s.data

/-- The normalized `days` field of a Python `timedelta` holding `t`
microseconds (floor division, as Python normalizes). -/
def tdDays (t : Int) : Int := (t.fdiv 1000000).fdiv 86400

/-- The normalized `seconds` field (`0 ≤ seconds < 86400`). -/
def tdSeconds (t : Int) : Int := (t.fdiv 1000000).fmod 86400

/-- The normalized `microseconds` field (`0 ≤ microseconds < 1000000`). -/
def tdMicroseconds (t : Int) : Int := t.fmod 1000000

/-- The rendering step of `validate_time`:

    days_in_hours = duration.days * 24
    minutes, seconds = divmod(duration.seconds, 60)
    hours, minutes = divmod(minutes, 60)
    return f"{days_in_hours + hours}:{minutes}:{seconds}.{duration.microseconds}"

Each interpolated integer is printed in plain decimal, with no width or
zero padding, exactly as a Python f-string prints an `int`. -/
def renderDuration (t : Int) : String :=
  let daysInHours := tdDays t * 24
  let m1 := (tdSeconds t).fdiv 60
  let s1 := (tdSeconds t).fmod 60
  let h := m1.fdiv 60
  let m2 := m1.fmod 60
  toString (daysInHours + h) ++ ":" ++ toString m2 ++ ":" ++ toString s1
    ++ "." ++ toString (tdMicroseconds t)

/-- `validate_time` from `src/helpers/pydantic_helpers.py`: parse the string
with `parse_duration` and re-render it; `none` models the exception
propagated on unparsable input. -/
def validate_time (time : String) : Option String :=
  (parse_duration time).map renderDuration

/-! ## The tabular store: `src/helpers/gspread_helpers.py`

A worksheet is a header row plus data rows, all cells strings (the sheet
service stores booleans as the strings `TRUE`/`FALSE`, which is what
`col_values` hands back and `str2bool` parses).  The sheet is modelled as
rectangular: `safe_append_row` maintains that every data row has the
header's length. -/

/-- A worksheet row: a list of string cells. -/
abbrev Row := List String

/-- A worksheet: the header row (row 1 of the sheet) and the data rows. -/
structure Table where
  header : Row
  data : List Row
  deriving DecidableEq

/-- Cell `i` of a row; Python raises `IndexError` on a missing cell, which
callers guard explicitly, so the bare accessor defaults to the empty cell. -/
def cell (r : Row) (i : Nat) : String := (r.get? i).getD ""

/-- Python `list.index`, as an option: index of the first element equal to
the argument. -/
def listIndex (vals : List String) (v : String) : Option Nat :=
  match vals with
  | [] => none
  | x :: xs => if x == v then some 0 else (listIndex xs v).map Nat.succ

/-- `get_header`: the first row of the worksheet. -/
def get_header (t : Table) : Row := t.header

/-- `get_values`: all rows except the header. -/
def get_values (t : Table) : List Row := t.data

/-- `safe_append_row`: raises `ValueError` (modelled as `none`) when the
row's length differs from the header's length, otherwise appends the row as
the new last row. -/
def safe_append_row (t : Table) (row : Row) : Option Table :=
  if (get_header t).length ≠ row.length then none
  else some { t with data := t.data ++ [row] }

/-- `get_values_by_header`: the data-row values in the column whose header
equals the argument; `none` models the `ValueError` raised when the header
is absent. -/
def get_values_by_header (t : Table) (h : String) : Option (List String) :=
  match listIndex (get_header t) h with
  | none => none
  | some i => some ((get_values t).map (fun r => cell r i))

/-- `get_first_row_where_header`: the first data row whose value under the
header equals `v`; the source catches `ValueError` (missing header or value
not found) and returns the empty list. -/
def get_first_row_where_header (t : Table) (h v : String) : Row :=
  match get_values_by_header t h with
  | none => []
  | some vals =>
    match listIndex vals v with
    | none => []
    | some i => ((get_values t).get? i).getD []

/-- `str2bool`: case-insensitive `"true"`/`"false"`, `ValueError` (`none`)
otherwise.  Lower-casing is done on the character list so that the
definition evaluates by kernel reduction. -/
def str2bool (s : String) : Option Bool :=
  if s.data.map Char.toLower == "true".data then some true
  else if s.data.map Char.toLower == "false".data then some false
  else none

/-- Modelled from the spec: `get_rows_where_header` is called by
`standings` (`src/cogs/event_submission.py`) but is absent from
`src/helpers/gspread_helpers.py`.  Per spec section 4.1 (column lookup and
row lookup by column value) and the `standings` contract ("all submission
rows for one `event_name`"), it returns every data row whose value under
`header` equals `value`, in stored order, failing (`none`, the spec's
`ColumnNotFound`) when the header is absent. -/
def get_rows_where_header (t : Table) (h v : String) : Option (List Row) :=
  match listIndex (get_header t) h with
  | none => none
  | some i => some ((get_values t).filter (fun r => cell r i == v))

/-! ## The event cog: `src/cogs/event_submission.py` -/

/-- `DEvent.headers()`: the header row of the events worksheet. -/
def DEventHeaders : Row := ["event_name", "has_powerstage"]

/-- `FEventSubmissions.headers()`: the header row of the submissions
worksheet. -/
def FEventSubHeaders : Row :=
  ["user_name", "submission_datetime", "event_name", "time", "video_link",
   "powerstage_time"]

/-- The spreadsheet state: the two worksheets the cog touches, `none` while
a worksheet has not been created yet. -/
structure Sheet where
  events : Option Table
  subs : Option Table
  deriving DecidableEq

/-- `get_or_create_worksheet` for the events worksheet (`DEvent`): return
the existing worksheet, or create it with the standard header. -/
def getOrCreateEvents (sh : Sheet) : Table × Sheet :=
  match sh.events with
  | some t => (t, sh)
  | none => (⟨DEventHeaders, []⟩, { sh with events := some ⟨DEventHeaders, []⟩ })

/-- `get_or_create_worksheet` for the submissions worksheet
(`FEventSubmissions`). -/
def getOrCreateSubs (sh : Sheet) : Table × Sheet :=
  match sh.subs with
  | some t => (t, sh)
  | none => (⟨FEventSubHeaders, []⟩, { sh with subs := some ⟨FEventSubHeaders, []⟩ })

/-- The cell a boolean command argument becomes in the sheet: the sheet
service stores Python `True`/`False` as the cell strings `TRUE`/`FALSE`. -/
def pyBoolCell (b : Bool) : String := if b then "TRUE" else "FALSE"

/-- Outcome of `/event add`. -/
inductive AddResult
  | alreadyExists
  | added
  | err
  deriving DecidableEq

/-- `EventCommands.add`: create the events worksheet if needed, reject when
the event name is already in the `event_name` column, otherwise append
`[event_name, has_powerstage]`.  `err` models an uncaught exception
(missing header column or arity mismatch on a foreign table). -/
def addEvent (sh : Sheet) (ename : String) (hasPs : Bool) : AddResult × Sheet :=
  let ws := (getOrCreateEvents sh).1
  let sh1 := (getOrCreateEvents sh).2
  let rowEntry : Row := [ename, pyBoolCell hasPs]
  match get_values_by_header ws "event_name" with
  | none => (.err, sh1)
  | some names =>
    if names.contains ename then (.alreadyExists, sh1)
    else
      match safe_append_row ws rowEntry with
      | none => (.err, sh1)
      | some ws2 => (.added, { sh1 with events := some ws2 })

/-- Whether the first list is a prefix of the second. -/
def isCharPrefix : List Char → List Char → Bool
  | [], _ => true
  | _ :: _, [] => false
  | a :: as, b :: bs => a == b && isCharPrefix as bs

/-- Abstraction of pydantic's `AnyHttpUrl` validator (external library
code): per spec section 4.2 the link "must parse as an absolute URL with
scheme `http` or `https`".  Only the pass/fail outcome of this check is
ever observed by a claim, so the host grammar is reduced to: an `http://`
or `https://` prefix followed by at least one character. -/
def is_valid_http_url (s : String) : Bool :=
  (isCharPrefix "http://".data s.data && s.data.length > 7)
    || (isCharPrefix "https://".data s.data && s.data.length > 8)

/-- The `powerstage_time` validator
`optional_wrapper(validate_time)`: `None` becomes the empty string, any
other value goes through `validate_time`. -/
def psValidate (ps : Option String) : Option String :=
  match ps with
  | none => some ""
  | some s => validate_time s

/-- Python truthiness of the raw `powerstage_time` argument: `None` and the
empty string are falsy. -/
def psTruthy (ps : Option String) : Bool :=
  match ps with
  | none => false
  | some s => !s.data.isEmpty

/-- Outcome of `/event submit`.  `validationError` is the pydantic
`ValidationError` raised while building `EventSubmissionModel`;
`internalError` is any other uncaught exception (missing header column,
short event row, unparsable flag cell, arity mismatch). -/
inductive SubmitResult
  | validationError
  | eventNotRegistered
  | duplicateLink
  | powerstageRequired
  | powerstageNotAllowed
  | accepted
  | internalError
  deriving DecidableEq

/-- `EventCommands.submit`.  `now` is the server-assigned timestamp after
`validate_datetime`, which always succeeds on a `datetime` and is kept
abstract.  Validation of the pydantic model happens first; the worksheets
are only fetched or created afterwards; every rejection returns before the
append. -/
def submit (sh : Sheet) (uname now ename time link : String)
    (ps : Option String) : SubmitResult × Sheet :=
  match validate_time time with
  | none => (.validationError, sh)
  | some vtime =>
    if is_valid_http_url link then
      match psValidate ps with
      | none => (.validationError, sh)
      | some vps =>
        let rowEntry : Row := [uname, now, ename, vtime, link, vps]
        let fws := (getOrCreateSubs sh).1
        let sh1 := (getOrCreateSubs sh).2
        let dws := (getOrCreateEvents sh1).1
        let sh2 := (getOrCreateEvents sh1).2
        match get_values_by_header dws "event_name" with
        | none => (.internalError, sh2)
        | some evNames =>
          if evNames.contains ename then
            match get_first_row_where_header fws "video_link" link with
            | _ :: _ => (.duplicateLink, sh2)
            | [] =>
              match (get_first_row_where_header dws "event_name" ename).get? 1 with
              | none => (.internalError, sh2)
              | some flagCell =>
                match str2bool flagCell with
                | none => (.internalError, sh2)
                | some flag =>
                  if flag && !psTruthy ps then (.powerstageRequired, sh2)
                  else if !flag && psTruthy ps then (.powerstageNotAllowed, sh2)
                  else
                    match safe_append_row fws rowEntry with
                    | none => (.internalError, sh2)
                    | some fws2 => (.accepted, { sh2 with subs := some fws2 })
          else (.eventNotRegistered, sh2)
    else (.validationError, sh)

/-! ## Standings -/

/-- Python string comparison: lexicographic on code points. -/
def strLtB : List Char → List Char → Bool
  | _, [] => false
  | [], _ :: _ => true
  | a :: as, b :: bs =>
    if a.val < b.val then true
    else if b.val < a.val then false
    else strLtB as bs

/-- The comparison under `sorted(event_subs, key=lambda x: x[3])`: row `a`
may precede row `b` when `b`'s key is not strictly below `a`'s. -/
def subLe (a b : Row) : Bool := !strLtB (cell b 3).data (cell a 3).data

/-- Stable insertion into a sorted list: an element is placed before the
first element it compares `le` to, so earlier elements stay before equal
later ones. -/
def insertSorted (le : Row → Row → Bool) (a : Row) : List Row → List Row
  | [] => [a]
  | b :: bs => if le a b then a :: b :: bs else b :: insertSorted le a bs

/-- Stable sort (insertion sort).  Python's `sorted` is stable and, for the
total preorder induced by string keys, every stable sort produces the same
list. -/
def stableSort (le : Row → Row → Bool) : List Row → List Row
  | [] => []
  | a :: rest => insertSorted le a (stableSort le rest)

/-- The per-user filter of `standings`: keep the first row of each distinct
`user_name` (cell 0), in order; `seen` is the `processed_users` set. -/
def dedupUsers : List Row → List String → List Row
  | [], _ => []
  | r :: rs, seen =>
    if seen.contains (cell r 0) then dedupUsers rs seen
    else r :: dedupUsers rs (cell r 0 :: seen)

/-- `[[i + 1] + x for i, x in enumerate(filtered_subs)]`: 1-based ranks. -/
def rankFrom (i : Nat) : List Row → List (Nat × Row)
  | [] => []
  | r :: rs => (i, r) :: rankFrom (i + 1) rs

/-- Outcome of `/event standings`: the "has no submissions" message, the
ranked table (before ASCII formatting), or an uncaught exception. -/
inductive StandingsResult
  | noSubmissions
  | ranked (rows : List (Nat × Row))
  | err
  deriving DecidableEq

/-- `EventCommands.standings`: fetch or create the submissions worksheet,
take the rows for the event, signal `noSubmissions` when no row contains
the event name, otherwise sort by the raw string in the `time` column
(index 3), keep each user's first row, and rank from 1.  Rows narrower than
the `time` column would raise `IndexError` in the sort key (`err`). -/
def standings (sh : Sheet) (ename : String) : StandingsResult × Sheet :=
  let fws := (getOrCreateSubs sh).1
  let sh1 := (getOrCreateSubs sh).2
  match get_rows_where_header fws "event_name" ename with
  | none => (.err, sh1)
  | some eventSubs =>
    if eventSubs.any (fun r => r.contains ename) then
      if eventSubs.any (fun r => r.length < 4) then (.err, sh1)
      else
        (.ranked (rankFrom 1 (dedupUsers (stableSort subLe eventSubs) [])), sh1)
    else (.noSubmissions, sh1)

/-- The data rows of the submissions worksheet; a worksheet that does not
exist yet has none. -/
def subsData (sh : Sheet) : List Row :=
  match sh.subs with
  | none => []
  | some t => t.data

/-! ## Helper lemmas -/

theorem subsData_getOrCreateEvents (sh : Sheet) :
    subsData (getOrCreateEvents sh).2 = subsData sh := by
  unfold getOrCreateEvents subsData
  cases sh.events <;> rfl

theorem subsData_getOrCreateSubs (sh : Sheet) :
    subsData (getOrCreateSubs sh).2 = subsData sh := by
  unfold getOrCreateSubs subsData
  cases h : sh.subs <;> simp [h]

theorem getOrCreateSubs_data (sh : Sheet) :
    ((getOrCreateSubs sh).1).data = subsData sh := by
  unfold getOrCreateSubs subsData
  cases sh.subs <;> rfl

theorem safe_append_row_some {t t2 : Table} {r : Row}
    (h : safe_append_row t r = some t2) : t2.data = t.data ++ [r] := by
  unfold safe_append_row at h
  split at h
  · cases h
  · cases h; rfl

theorem safe_append_row_eq_some (t : Table) (r : Row)
    (h : (get_header t).length = r.length) :
    safe_append_row t r = some ⟨t.header, t.data ++ [r]⟩ := by
  unfold safe_append_row
  rw [if_neg (by omega)]

theorem gvbh_devent (rows : List Row) :
    get_values_by_header ⟨DEventHeaders, rows⟩ "event_name"
      = some (rows.map (fun r => cell r 0)) := rfl

theorem gvbh_fsub_event (rows : List Row) :
    get_values_by_header ⟨FEventSubHeaders, rows⟩ "event_name"
      = some (rows.map (fun r => cell r 2)) := rfl

theorem gvbh_fsub_link (rows : List Row) :
    get_values_by_header ⟨FEventSubHeaders, rows⟩ "video_link"
      = some (rows.map (fun r => cell r 4)) := rfl

/-! ## Claim theorems -/

/-- Claim C1 (code bug).  The spec requires `standings` to sort ascending by
the parsed duration of the `time` field, but the code sorts by the raw
string (`key=lambda x: x[FEventSubmissions.time.value]`): on two submissions
for event `E` with times `"10:00"` (600 s) and `"2:00"` (120 s), the string
`"10:00"` sorts first, so the slower submission is ranked 1 even though its
parsed duration is larger. -/
theorem standings_sorts_by_string_not_duration :
    standings
        ⟨none, some ⟨FEventSubHeaders,
          [["A", "d1", "E", "10:00", "http://a.example", ""],
           ["B", "d2", "E", "2:00", "http://b.example", ""]]⟩⟩ "E"
      = (.ranked [(1, ["A", "d1", "E", "10:00", "http://a.example", ""]),
                  (2, ["B", "d2", "E", "2:00", "http://b.example", ""])],
         ⟨none, some ⟨FEventSubHeaders,
          [["A", "d1", "E", "10:00", "http://a.example", ""],
           ["B", "d2", "E", "2:00", "http://b.example", ""]]⟩⟩)
    ∧ parse_duration "2:00" = some 120000000
    ∧ parse_duration "10:00" = some 600000000 := by decide

/-- Claim C2 (confirmed).  When the submissions worksheet holds no row for
the requested event, `standings` reports the "has no submissions" condition;
it neither errors nor crashes.  The row selection uses
`get_rows_where_header`, which is modelled from the spec because the helper
is absent from `src/helpers/gspread_helpers.py`. -/
theorem standings_no_submissions (sh : Sheet) (ename : String)
    (h : get_rows_where_header (getOrCreateSubs sh).1 "event_name" ename
      = some []) :
    (standings sh ename).1 = .noSubmissions := by
  simp [standings, h]

/-- Witness for C2: the empty spreadsheet has no submissions for `"E"`. -/
theorem standings_no_submissions_witness :
    (standings ⟨none, none⟩ "E").1 = .noSubmissions :=
  standings_no_submissions ⟨none, none⟩ "E" (by decide)

/-- Claim C3 (code bug).  The spec says `validate_time` re-renders as
`H:MM:SS.ffffff` with exactly two-digit minutes and seconds and a six-digit
microsecond field; the code's f-string pads nothing, so 65 seconds and 5
microseconds (`"0:01:05.000005"`) re-render as `"0:1:5.5"`, not as the
claimed `"0:01:05.000005"`. -/
theorem validate_time_unpadded_render :
    validate_time "0:01:05.000005" = some "0:1:5.5"
      ∧ "0:1:5.5" ≠ "0:01:05.000005" := by decide

/-- Claim C4 (code bug).  The claimed round trip fails: `"0:00.000005"`
parses to 5 microseconds and renders as `"0:0:0.5"`, but re-parsing
`"0:0:0.5"` left-justifies the fraction to `"500000"` and yields 500000
microseconds, a different duration value. -/
theorem validate_time_roundtrip_fails :
    validate_time "0:00.000005" = some "0:0:0.5"
      ∧ parse_duration "0:00.000005" = some 5
      ∧ parse_duration "0:0:0.5" = some 500000 := by decide

/-- Counterexample to claim C5 as stated: an input whose seconds component
is 60 or greater is not rejected — `"0:75"` parses to 75 seconds and
re-renders as `"0:1:15.0"`. -/
theorem validate_time_accepts_sixty_plus :
    validate_time "0:75" = some "0:1:15.0" := by decide

/-- Claim C5 (corrected).  `validate_time` fails on inputs neither duration
regex matches — non-numeric segments, malformed or dangling separators —
but minutes or seconds of 60 or more are accepted and carried into the next
larger unit. -/
theorem validate_time_error_cases :
    validate_time "abc" = none
      ∧ validate_time "1a:00" = none
      ∧ validate_time "1::2" = none
      ∧ validate_time "1:2:" = none
      ∧ validate_time "1:2:3:4" = none
      ∧ validate_time "" = none
      ∧ validate_time "0:75" = some "0:1:15.0"
      ∧ validate_time "1:75:03" = some "2:15:3.0" := by decide

/-- Claim C8 (confirmed).  `safe_append_row` fails exactly when the row's
length differs from the stored header's length; on equal lengths it appends
the row as the new last data row, growing the data-row count by one. -/
theorem safe_append_row_spec (t : Table) (row : Row) :
    (safe_append_row t row = none ↔ row.length ≠ (get_header t).length)
      ∧ (row.length = (get_header t).length →
          safe_append_row t row = some ⟨t.header, t.data ++ [row]⟩)
      ∧ (∀ t2, safe_append_row t row = some t2 →
          (get_values t2).length = (get_values t).length + 1) := by
  refine ⟨⟨?_, ?_⟩, ?_, ?_⟩
  · intro hn
    unfold safe_append_row at hn
    by_cases hc : (get_header t).length = row.length
    · rw [if_neg (by omega)] at hn
      cases hn
    · omega
  · intro hne
    unfold safe_append_row
    rw [if_pos (by omega)]
  · intro h
    unfold safe_append_row
    rw [if_neg (by omega)]
  · intro t2 h
    have := safe_append_row_some h
    simp [get_values, this]

/-- Witness for C8: appending a matching row succeeds and a short row
fails. -/
theorem safe_append_row_spec_witness :
    safe_append_row ⟨["a", "b"], []⟩ ["x", "y"]
        = some ⟨["a", "b"], [["x", "y"]]⟩
      ∧ safe_append_row ⟨["a", "b"], []⟩ ["x"] = none :=
  ⟨(safe_append_row_spec ⟨["a", "b"], []⟩ ["x", "y"]).2.1 (by decide),
   (safe_append_row_spec ⟨["a", "b"], []⟩ ["x"]).1.mpr (by decide)⟩

/-- Claim C9 (confirmed).  On an events worksheet with the standard header,
`add` rejects an event name already present in the `event_name` column
(exact, case-sensitive string equality) and leaves the spreadsheet
untouched; otherwise it appends `[event_name, has_powerstage]`. -/
theorem add_event_spec (evRows : List Row) (subsOpt : Option Table)
    (ename : String) (hasPs : Bool) :
    ((evRows.map (fun r => cell r 0)).contains ename = true →
      addEvent ⟨some ⟨DEventHeaders, evRows⟩, subsOpt⟩ ename hasPs
        = (.alreadyExists, ⟨some ⟨DEventHeaders, evRows⟩, subsOpt⟩))
    ∧ ((evRows.map (fun r => cell r 0)).contains ename = false →
      addEvent ⟨some ⟨DEventHeaders, evRows⟩, subsOpt⟩ ename hasPs
        = (.added, ⟨some ⟨DEventHeaders, evRows ++ [[ename, pyBoolCell hasPs]]⟩,
            subsOpt⟩)) := by
  constructor <;> intro h <;>
    unfold addEvent <;>
    simp only [getOrCreateEvents, gvbh_devent] <;>
    rw [h]
  · simp only [if_true]
  · simp only [Bool.false_eq_true, if_false]
    rw [safe_append_row_eq_some ⟨DEventHeaders, evRows⟩ [ename, pyBoolCell hasPs]
      rfl]

/-- Witness for C9: adding `"E"` twice — the second call is rejected and
changes nothing. -/
theorem add_event_spec_witness :
    addEvent ⟨some ⟨DEventHeaders, []⟩, none⟩ "E" true
        = (.added, ⟨some ⟨DEventHeaders, [["E", "TRUE"]]⟩, none⟩)
      ∧ addEvent ⟨some ⟨DEventHeaders, [["E", "TRUE"]]⟩, none⟩ "E" false
        = (.alreadyExists, ⟨some ⟨DEventHeaders, [["E", "TRUE"]]⟩, none⟩) :=
  ⟨(add_event_spec [] none "E" true).2 (by decide),
   (add_event_spec [["E", "TRUE"]] none "E" false).1 (by decide)⟩

/-- Counterexample to claim C6 as stated: model validation runs before the
event-registration check, so an unregistered event submitted together with
an unparsable `time` is rejected as a validation error, not with the
`EventNotRegistered` rejection the claim promises "regardless of whether the
other fields are valid or invalid". -/
theorem submit_validation_precedes_event_check :
    (submit ⟨none, none⟩ "u" "now" "X" "nope" "http://v.example" none).1
        = .validationError
      ∧ SubmitResult.validationError ≠ .eventNotRegistered := by decide

/-- Claim C6 (corrected).  Provided the submitted fields pass model
validation, a submit whose `event_name` is not in the events table's
`event_name` column is rejected with `EventNotRegistered`, whatever the
state of the submissions table. -/
theorem submit_unregistered_rejected (sh : Sheet)
    (uname now ename time link : String) (ps : Option String)
    (vtime vps : String) (names : List String)
    (hvt : validate_time time = some vtime)
    (hurl : is_valid_http_url link = true)
    (hps : psValidate ps = some vps)
    (hnames : get_values_by_header
        (getOrCreateEvents (getOrCreateSubs sh).2).1 "event_name" = some names)
    (hmem : names.contains ename = false) :
    (submit sh uname now ename time link ps).1 = .eventNotRegistered := by
  unfold submit
  rw [hvt, hurl, hps]
  simp only [if_true]
  rw [hnames]
  simp only [hmem, Bool.false_eq_true, if_false]

/-- Witness for C6: a fresh spreadsheet knows no events, so a valid
submission to `"X"` is rejected as unregistered. -/
theorem submit_unregistered_rejected_witness :
    (submit ⟨none, none⟩ "u" "now" "X" "1:05" "http://v.example" none).1
      = .eventNotRegistered :=
  submit_unregistered_rejected ⟨none, none⟩ "u" "now" "X" "1:05"
    "http://v.example" none "0:1:5.0" "" [] (by decide) (by decide) (by decide)
    (by decide) (by decide)

/-- Claim C7 (confirmed).  With valid fields, a registered event and a fresh
video link, the four combinations of the event's `has_powerstage` flag and
the presence of `powerstage_time` behave exhaustively as: flag set and field
empty rejects with "powerstage required"; flag clear and field non-empty
rejects with "powerstage not accepted"; the two matching combinations accept
and append the normalized row. -/
theorem submit_powerstage_cases (evRows subRows : List Row)
    (uname now ename time link : String) (ps : Option String)
    (vtime vps flagCell : String) (erow : Row) (flag : Bool)
    (hvt : validate_time time = some vtime)
    (hurl : is_valid_http_url link = true)
    (hps : psValidate ps = some vps)
    (hmem : (evRows.map (fun r => cell r 0)).contains ename = true)
    (hfresh : get_first_row_where_header ⟨FEventSubHeaders, subRows⟩
      "video_link" link = [])
    (herow : get_first_row_where_header ⟨DEventHeaders, evRows⟩
      "event_name" ename = erow)
    (hcell : erow.get? 1 = some flagCell)
    (hflag : str2bool flagCell = some flag) :
    submit ⟨some ⟨DEventHeaders, evRows⟩, some ⟨FEventSubHeaders, subRows⟩⟩
        uname now ename time link ps
      = (if flag && !psTruthy ps then
           (.powerstageRequired,
            ⟨some ⟨DEventHeaders, evRows⟩, some ⟨FEventSubHeaders, subRows⟩⟩)
         else if !flag && psTruthy ps then
           (.powerstageNotAllowed,
            ⟨some ⟨DEventHeaders, evRows⟩, some ⟨FEventSubHeaders, subRows⟩⟩)
         else
           (.accepted,
            ⟨some ⟨DEventHeaders, evRows⟩,
             some ⟨FEventSubHeaders,
               subRows ++ [[uname, now, ename, vtime, link, vps]]⟩⟩)) := by
  have happ : safe_append_row ⟨FEventSubHeaders, subRows⟩
      [uname, now, ename, vtime, link, vps]
      = some ⟨FEventSubHeaders,
          subRows ++ [[uname, now, ename, vtime, link, vps]]⟩ :=
    safe_append_row_eq_some _ _ rfl
  unfold submit
  rw [hvt, hurl]
  simp only [if_true]
  rw [hps]
  simp only [getOrCreateSubs, getOrCreateEvents, gvbh_devent]
  rw [hmem]
  simp only [if_true]
  rw [hfresh]
  simp only []
  rw [herow, hcell]
  simp only []
  rw [hflag]
  simp only []
  rw [happ]

/-- Witness for C7: a powerstage event with a provided powerstage time is
accepted and the normalized row is appended. -/
theorem submit_powerstage_cases_witness :
    submit ⟨some ⟨DEventHeaders, [["E", "TRUE"]]⟩, some ⟨FEventSubHeaders, []⟩⟩
        "u" "now" "E" "1:05" "http://v.example" (some "0:30")
      = (.accepted,
         ⟨some ⟨DEventHeaders, [["E", "TRUE"]]⟩,
          some ⟨FEventSubHeaders,
            [["u", "now", "E", "0:1:5.0", "http://v.example", "0:0:30.0"]]⟩⟩) := by
  have h := submit_powerstage_cases [["E", "TRUE"]] [] "u" "now" "E" "1:05"
    "http://v.example" (some "0:30") "0:1:5.0" "0:0:30.0" "TRUE" ["E", "TRUE"]
    true (by decide) (by decide) (by decide) (by decide) (by decide) (by decide)
    (by decide) (by decide)
  simpa using h

/-- Claim C10 (confirmed).  A submit request that does not reach the single
all-checks-pass outcome appends nothing: the submissions worksheet's data
rows are unchanged; the accepted outcome appends exactly one row. -/
theorem submit_reject_frame (sh : Sheet) (uname now ename time link : String)
    (ps : Option String) (res : SubmitResult) (sh2 : Sheet)
    (h : submit sh uname now ename time link ps = (res, sh2)) :
    (res ≠ .accepted → subsData sh2 = subsData sh)
    ∧ (res = .accepted → ∃ r, subsData sh2 = subsData sh ++ [r]) := by
  have hchain : subsData (getOrCreateEvents (getOrCreateSubs sh).2).2
      = subsData sh := by
    rw [subsData_getOrCreateEvents, subsData_getOrCreateSubs]
  revert h
  unfold submit
  repeat' split
  all_goals
    intro h
  all_goals
    rw [Prod.mk.injEq] at h
  all_goals
    obtain ⟨hr, hs⟩ := h
  all_goals
    subst hr
  all_goals
    subst hs
  all_goals try simp [hchain]
  rename_i ps1 vtime hvt1 hurl1 ps2 vps hps1
  cases h4 : get_values_by_header (getOrCreateEvents (getOrCreateSubs sh).2).1
      "event_name" with
  | none => simp [h4, hchain]
  | some evNames =>
    by_cases h5 : ename ∈ evNames
    · cases h6 : get_first_row_where_header (getOrCreateSubs sh).1
          "video_link" link with
      | cons a as => simp [h4, h5, h6, hchain]
      | nil =>
        cases h7 : (get_first_row_where_header
            (getOrCreateEvents (getOrCreateSubs sh).2).1
            "event_name" ename)[1]? with
        | none => simp [h4, h5, h6, h7, hchain]
        | some flagCell =>
          cases h8 : str2bool flagCell with
          | none => simp [h4, h5, h6, h7, h8, hchain]
          | some flag =>
            by_cases h9 : flag = true ∧ psTruthy ps = false
            · simp [h4, h5, h6, h7, h8, h9, hchain]
            · by_cases h10 : flag = false ∧ psTruthy ps = true
              · simp [h4, h5, h6, h7, h8, h9, h10, hchain]
              · cases h11 : safe_append_row (getOrCreateSubs sh).1
                    [uname, now, ename, vtime, link, vps] with
                | none => simp [h4, h5, h6, h7, h8, h9, h10, h11, hchain]
                | some fws2 =>
                  have hd : fws2.data
                      = subsData sh ++ [[uname, now, ename, vtime, link, vps]] := by
                    rw [safe_append_row_some h11, getOrCreateSubs_data]
                  simp [h4, h5, h6, h7, h8, h9, h10, h11, subsData, hd]
    · simp [h4, h5, hchain]

/-- Witness for C10: a submission to an unregistered event, against a sheet
already holding one submission, leaves the submissions data rows
untouched. -/
theorem submit_reject_frame_witness :
    subsData (submit
        ⟨some ⟨DEventHeaders, [["E", "TRUE"]]⟩,
         some ⟨FEventSubHeaders,
           [["w", "d", "E", "0:1:0.0", "http://old.example", "0:0:30.0"]]⟩⟩
        "u" "now" "X" "1:05" "http://v.example" none).2
      = subsData
        ⟨some ⟨DEventHeaders, [["E", "TRUE"]]⟩,
         some ⟨FEventSubHeaders,
           [["w", "d", "E", "0:1:0.0", "http://old.example", "0:0:30.0"]]⟩⟩ :=
  (submit_reject_frame
      ⟨some ⟨DEventHeaders, [["E", "TRUE"]]⟩,
       some ⟨FEventSubHeaders,
         [["w", "d", "E", "0:1:0.0", "http://old.example", "0:0:30.0"]]⟩⟩
      "u" "now" "X" "1:05" "http://v.example" none _ _ rfl).1 (by decide)

end CatBot
